import Mathlib

/-!
Verification of the HTTP request core of the backlog-ts client library.

The definitions below are a shallow embedding of `src/request.ts` and
`src/config.ts`:

* pure helpers (`buildQueryString`, `buildUrl`, `buildHeaders`,
  `calculateRetryDelay`, `isRetryableError`, `isRetryableStatusCode`, the
  error-message resolution and the `Content-Disposition` filename
  extraction) are translated directly as Lean functions;
* the effectful executor (`executeRequest` / `request` / `download`) is
  modelled by passing the network explicitly: a `transport` function maps
  the 1-based attempt number to that attempt's fetch outcome, the stream of
  `Math.random()` draws is a `rand` function, and the logger side channel is
  reified as the list of events handed to the configured callbacks.
  Wall-clock durations (from `performance.now()`) are not modelled; every
  other argument of each logging call is.

JavaScript numbers are modelled as `ℚ` (for delays) and `Nat`/`Int` (for
status codes and query values); JavaScript string truthiness (`""` is
falsy) is modelled explicitly wherever the source relies on it.
-/

namespace Backlog

/-- A query-parameter scalar, i.e. a JavaScript value as it is stringified by
`String(item)` in `buildQueryString`. `sUndef`/`sNull` stringify to
`"undefined"`/`"null"` when they occur inside an array (top-level
`undefined`/`null` entries are skipped before stringification). -/
inductive ScalarVal where
  | sUndef
  | sNull
  | sStr (s : String)
  | sNum (n : Int)
  | sBool (b : Bool)
deriving DecidableEq

/-- A query-parameter value as accepted by `buildQueryString` (the source
types it `unknown`; arrays are iterated element-wise and each element is
stringified, so array elements are scalars here). -/
inductive QueryVal where
  | vUndef
  | vNull
  | vStr (s : String)
  | vNum (n : Int)
  | vBool (b : Bool)
  | vArr (items : List ScalarVal)
deriving DecidableEq

/-- JavaScript `String(x)` on a scalar query value. -/
def scalarString : ScalarVal → String
  | ScalarVal.sUndef => "undefined"
  | ScalarVal.sNull => "null"
  | ScalarVal.sStr s => s
  | ScalarVal.sNum n => toString n
  | ScalarVal.sBool b => cond b "true" "false"

/-- One hexadecimal digit, upper case, as produced by percent-encoding. -/
def hexDigit (n : Nat) : Char :=
  if n < 10 then Char.ofNat (48 + n) else Char.ofNat (55 + n)

/-- The UTF-8 bytes of one character. -/
def utf8Bytes (c : Char) : List Nat :=
  let n := c.toNat
  if n < 128 then [n]
  else if n < 2048 then [192 + n / 64, 128 + n % 64]
  else if n < 65536 then [224 + n / 4096, 128 + (n / 64) % 64, 128 + n % 64]
  else [240 + n / 262144, 128 + (n / 4096) % 64, 128 + (n / 64) % 64, 128 + n % 64]

/-- Percent-encode one byte as `%XX`. -/
def percentByte (b : Nat) : List Char :=
  ['%', hexDigit (b / 16), hexDigit (b % 16)]

/-- `application/x-www-form-urlencoded` encoding of one character, as
performed by `URLSearchParams.toString()`: ASCII alphanumerics and
`*`, `-`, `.`, `_` are kept, a space becomes `+`, every other character is
percent-encoded byte-wise. -/
def urlEncodeChar (c : Char) : List Char :=
  if c = ' ' then ['+']
  else if c.isAlphanum || c = '*' || c = '-' || c = '.' || c = '_' then [c]
  else (utf8Bytes c).flatMap percentByte

/-- `application/x-www-form-urlencoded` encoding of a string. -/
def urlEncode (s : String) : String :=
  String.mk (s.data.flatMap urlEncodeChar)

/-- The serialized `k=v` components contributed by one entry of the
parameter record, mirroring the loop body of `buildQueryString`
(src/request.ts lines 67-79): `undefined`/`null` entries are skipped,
array entries append one `key[]=item` pair per element in order, any other
value appends a single `key=value` pair; `URLSearchParams` encodes both the
key and the value. -/
def queryValComponents (k : String) : QueryVal → List String
  | QueryVal.vUndef => []
  | QueryVal.vNull => []
  | QueryVal.vArr items =>
      items.map (fun item => urlEncode (k ++ "[]") ++ "=" ++ urlEncode (scalarString item))
  | QueryVal.vStr s => [urlEncode k ++ "=" ++ urlEncode s]
  | QueryVal.vNum n => [urlEncode k ++ "=" ++ urlEncode (toString n)]
  | QueryVal.vBool b => [urlEncode k ++ "=" ++ urlEncode (cond b "true" "false")]

/-- All serialized components of a parameter record, in entry order
(`Object.entries` preserves insertion order). -/
def queryComponents : List (String × QueryVal) → List String
  | [] => []
  | (k, v) :: rest => queryValComponents k v ++ queryComponents rest

/-- `buildQueryString` (src/request.ts lines 64-82): serialize the record
into `URLSearchParams` and render it, components joined by `&`. -/
def buildQueryString (params : List (String × QueryVal)) : String :=
  String.intercalate "&" (queryComponents params)

/-- Logger presence flags: which of the three optional callbacks the
configured logging sink defines (`logger?.request`, `logger?.response`,
`logger?.error`). -/
structure Logger where
  hasRequest : Bool := false
  hasResponse : Bool := false
  hasError : Bool := false
deriving DecidableEq

/-- `RetryConfig` (src/config.ts): every field optional. -/
structure RetryConfig where
  maxAttempts : Option Nat := none
  baseDelay : Option ℚ := none
  maxDelay : Option ℚ := none
  retryableStatusCodes : Option (List Nat) := none
  exponentialBackoff : Option Bool := none
deriving DecidableEq

/-- `Required<RetryConfig>`: the effective retry policy. -/
structure RetryConfigR where
  maxAttempts : Nat
  baseDelay : ℚ
  maxDelay : ℚ
  retryableStatusCodes : List Nat
  exponentialBackoff : Bool
deriving DecidableEq

/-- `DEFAULT_RETRY_CONFIG` (src/request.ts lines 6-12). -/
def DEFAULT_RETRY_CONFIG : RetryConfigR :=
  { maxAttempts := 3
    baseDelay := 1000
    maxDelay := 30000
    retryableStatusCodes := [429, 500, 502, 503, 504]
    exponentialBackoff := true }

/-- The field-wise merge `{...DEFAULT_RETRY_CONFIG, ...config.retry}`
(src/request.ts lines 209-212): an omitted field falls back to its
default. -/
def mergeRetryConfig (r : Option RetryConfig) : RetryConfigR :=
  match r with
  | none => DEFAULT_RETRY_CONFIG
  | some rc =>
      { maxAttempts := rc.maxAttempts.getD DEFAULT_RETRY_CONFIG.maxAttempts
        baseDelay := rc.baseDelay.getD DEFAULT_RETRY_CONFIG.baseDelay
        maxDelay := rc.maxDelay.getD DEFAULT_RETRY_CONFIG.maxDelay
        retryableStatusCodes :=
          rc.retryableStatusCodes.getD DEFAULT_RETRY_CONFIG.retryableStatusCodes
        exponentialBackoff :=
          rc.exponentialBackoff.getD DEFAULT_RETRY_CONFIG.exponentialBackoff }

/-- `BacklogConfig` (src/config.ts). -/
structure BacklogConfig where
  host : String
  apiKey : Option String := none
  accessToken : Option String := none
  timeout : Option Nat := none
  logger : Option Logger := none
  retry : Option RetryConfig := none
deriving DecidableEq

/-- JavaScript truthiness of an optional string: absent and `""` are both
falsy. -/
def truthyStr : Option String → Bool
  | none => false
  | some s => decide (s ≠ "")

/-- The in-place update `queryParams.apiKey = config.apiKey` on the object
`{...params}`: if a key `apiKey` already exists its value is overwritten at
its original position, otherwise the property is appended last. -/
def setApiKey (params : List (String × QueryVal)) (key : String) :
    List (String × QueryVal) :=
  if params.any (fun p => p.1 = "apiKey") then
    params.map (fun p => if p.1 = "apiKey" then ("apiKey", QueryVal.vStr key) else p)
  else params ++ [("apiKey", QueryVal.vStr key)]

/-- The query-parameter record actually serialized by `buildUrl`
(src/request.ts lines 95-99): the caller's params, with the `apiKey`
parameter injected when `config.apiKey` is truthy. -/
def effectiveQueryParams (config : BacklogConfig) (params : List (String × QueryVal)) :
    List (String × QueryVal) :=
  match config.apiKey with
  | some key => if key = "" then params else setApiKey params key
  | none => params

/-- JavaScript `host.startsWith("localhost:")` of `buildUrl`, expressed as
a character-level prefix test (so that it evaluates by kernel reduction). -/
def hostIsLocalhost (host : String) : Bool :=
  "localhost:".data.isPrefixOf host.data

/-- `buildUrl` (src/request.ts lines 87-103). -/
def buildUrl (config : BacklogConfig) (path : String)
    (params : List (String × QueryVal)) : String :=
  let protocol := if hostIsLocalhost config.host then "http" else "https"
  let baseUrl := protocol ++ "://" ++ config.host ++ "/api/v2/" ++ path
  let queryString := buildQueryString (effectiveQueryParams config params)
  if queryString = "" then baseUrl else baseUrl ++ "?" ++ queryString

/-- `buildHeaders` (src/request.ts lines 108-118). -/
def buildHeaders (config : BacklogConfig) : List (String × String) :=
  ("Content-Type", "application/json") ::
    (match config.accessToken with
     | some t => if t = "" then [] else [("Authorization", "Bearer " ++ t)]
     | none => [])

/-- `calculateRetryDelay` (src/request.ts lines 41-52); `rand` stands for
the `Math.random()` draw of this call, a value in `[0, 1)`. -/
def calculateRetryDelay (attempt : Nat) (retryConfig : RetryConfigR) (rand : ℚ) : ℚ :=
  if retryConfig.exponentialBackoff = false then retryConfig.baseDelay
  else
    let exponentialDelay := retryConfig.baseDelay * 2 ^ (attempt - 1)
    let jitter := rand * (1 / 10) * exponentialDelay
    let delay := exponentialDelay + jitter
    min delay retryConfig.maxDelay

/-- One element of a `BacklogError`'s nested `errors` list (src/config.ts). -/
structure BacklogNestedError where
  message : String
  code : Nat
deriving DecidableEq

/-- `BacklogError` (src/config.ts): the JSON error body shape. -/
structure BacklogError where
  message : String
  code : Option Nat := none
  errors : Option (List BacklogNestedError) := none
deriving DecidableEq

/-- The message-resolution expression
`errorData.errors?.[0]?.message || errorData.message || "Unknown error"`
(src/request.ts line 155 and line 348). JavaScript `||` skips a candidate
that is `undefined` (absent or empty `errors` list) or the empty string. -/
def resolveErrorMessage (e : BacklogError) : String :=
  let nested :=
    match e.errors with
    | some (h :: _) => h.message
    | _ => ""
  if nested = "" then (if e.message = "" then "Unknown error" else e.message) else nested

/-- Classification of a thrown JavaScript error, carrying exactly the
attributes `isRetryableError` and the retry loop inspect: `fetchTypeError`
is a `TypeError` whose message includes `"fetch"`, `abortError` is an error
named `"AbortError"` (a fired timeout), `httpError` is the error built in
`executeRequest` for a non-ok response (the only kind with a `status`). -/
inductive JsErrorKind where
  | fetchTypeError
  | abortError
  | httpError
  | otherError
deriving DecidableEq

/-- A thrown JavaScript error as observed by the retry loop: its
classification, its `message`, and the `status` attached by
`executeRequest` (absent for transport-level errors). -/
structure JsError where
  kind : JsErrorKind
  message : String
  status : Option Nat := none
deriving DecidableEq

/-- `isRetryableError` (src/request.ts lines 17-29): network `TypeError`s
from `fetch` are retryable, `AbortError` (timeout) is not, everything else
is not. -/
def isRetryableError (e : JsError) : Bool :=
  match e.kind with
  | JsErrorKind.fetchTypeError => true
  | JsErrorKind.abortError => false
  | JsErrorKind.httpError => false
  | JsErrorKind.otherError => false

/-- `isRetryableStatusCode` (src/request.ts lines 34-36). -/
def isRetryableStatusCode (statusCode : Nat) (retryConfig : RetryConfigR) : Bool :=
  retryConfig.retryableStatusCodes.contains statusCode

/-- The status half of the retry condition,
`errorWithStatus.status && isRetryableStatusCode(errorWithStatus.status, retryConfig)`
(src/request.ts line 265): a missing or zero (falsy) status short-circuits
to false. -/
def statusRetryable (e : JsError) (retryConfig : RetryConfigR) : Bool :=
  match e.status with
  | some s => (s != 0) && isRetryableStatusCode s retryConfig
  | none => false

/-- The outcome the network hands one attempt: `fetch` resolves with an ok
response carrying a JSON body, resolves with a non-ok response (whose body
may or may not parse as a JSON `BacklogError`), or rejects with an error. -/
inductive FetchOutcome (T : Type) where
  | ok (status : Nat) (data : T)
  | nonOk (status : Nat) (statusText : String) (jsonBody : Option BacklogError)
  | throwNet (kind : JsErrorKind) (message : String)
deriving DecidableEq

/-- The argument tuple of one `logger.error(...)` call made by the core:
the decoded (or synthesized) JSON error body logged by `executeRequest`,
the thrown error object logged by the retry loop before the terminal
throw, or the informational retry string (modelled structurally: attempt,
maxAttempts, computed delay and the failure message it interpolates). -/
inductive ErrorPayload where
  | errData (e : BacklogError)
  | errObj (e : JsError)
  | retryInfo (attempt maxAttempts : Nat) (delay : ℚ) (message : String)
deriving DecidableEq

/-- One observation handed to the logging sink by the core; `T` is the
decoded JSON type of a successful response. -/
inductive LogEvent (T : Type) where
  | request (method url : String) (headers : List (String × String)) (body : Option String)
  | response (method url : String) (status : Nat) (data : T)
  | error (method url : String) (payload : ErrorPayload)
deriving DecidableEq

/-- Does the configured sink define a `request` callback? -/
def hasRequestCb : Option Logger → Bool
  | some lg => lg.hasRequest
  | none => false

/-- Does the configured sink define a `response` callback? -/
def hasResponseCb : Option Logger → Bool
  | some lg => lg.hasResponse
  | none => false

/-- Does the configured sink define an `error` callback? -/
def hasErrorCb : Option Logger → Bool
  | some lg => lg.hasError
  | none => false

/-- The error body synthesized when a non-ok response's body is not JSON:
`{message: "HTTP {status}: {statusText}", code: status}`
(src/request.ts lines 142-145). -/
def synthesizedError (status : Nat) (statusText : String) : BacklogError :=
  { message := "HTTP " ++ toString status ++ ": " ++ statusText
    code := some status
    errors := none }

/-- `executeRequest` (src/request.ts lines 123-187) on one attempt's fetch
outcome: returns the decoded data or the thrown error, together with the
log events it emits. An ok response logs a `response` event and returns the
decoded JSON; a non-ok response decodes (or synthesizes) the error body,
logs it via `logger.error`, and throws an `Error` with the resolved message
and the status attached; a rejected fetch rethrows (the catch block only
attaches the elapsed duration, which is not modelled). -/
def executeRequest {T : Type} (url : String) (logger : Option Logger)
    (method : String) (outcome : FetchOutcome T) :
    Except JsError T × List (LogEvent T) :=
  match outcome with
  | FetchOutcome.ok status data =>
      (Except.ok data,
        if hasResponseCb logger then [LogEvent.response method url status data] else [])
  | FetchOutcome.nonOk status statusText jsonBody =>
      let errorData := jsonBody.getD (synthesizedError status statusText)
      (Except.error
          { kind := JsErrorKind.httpError
            message := resolveErrorMessage errorData
            status := some status },
        if hasErrorCb logger then [LogEvent.error method url (ErrorPayload.errData errorData)] else [])
  | FetchOutcome.throwNet kind message =>
      (Except.error { kind := kind, message := message, status := none }, [])

/-- The outcome of one logical `request` call: the value returned or error
thrown, the events handed to the logging sink in order, and the number of
network attempts performed. -/
structure LoopResult (T : Type) where
  result : Except JsError T
  events : List (LogEvent T)
  attemptsUsed : Nat

/-- The retry loop of `request` (src/request.ts lines 233-301).
`attemptsDone` is the value of the source's `attempt` counter on entry
(initially 0), `fuel` is `maxAttempts - attemptsDone` (the source loops
`while (attempt < maxAttempts)`), and `lastError` mirrors the source's
`lastError` variable. Each iteration performs one attempt via
`executeRequest`; on failure it retries iff attempts remain and the error
is transport-retryable or carries a retryable status, logging the
informational retry string before sleeping; otherwise it logs the thrown
error object and the loop raises it. An exhausted loop with no captured
error raises the generic fallback error. -/
def requestLoop {T : Type} (url : String) (logger : Option Logger) (method : String)
    (retryConfig : RetryConfigR) (transport : Nat → FetchOutcome T) (rand : Nat → ℚ) :
    Nat → Nat → Option JsError → LoopResult T
  | 0, attemptsDone, lastError =>
      { result := Except.error (lastError.getD
          { kind := JsErrorKind.otherError
            message := "Request failed after all retry attempts"
            status := none })
        events := []
        attemptsUsed := attemptsDone }
  | fuel + 1, attemptsDone, _lastError =>
      let attempt := attemptsDone + 1
      let step := executeRequest url logger method (transport attempt)
      match step.1 with
      | Except.ok data => { result := Except.ok data, events := step.2, attemptsUsed := attempt }
      | Except.error e =>
          let shouldRetry := decide (attempt < retryConfig.maxAttempts) &&
            (isRetryableError e || statusRetryable e retryConfig)
          if shouldRetry then
            let delay := calculateRetryDelay attempt retryConfig (rand attempt)
            let retryEvents : List (LogEvent T) :=
              if hasErrorCb logger then
                [LogEvent.error method url (ErrorPayload.retryInfo attempt
                  retryConfig.maxAttempts delay
                  (if e.message = "" then "Unknown error" else e.message))]
              else []
            let next := requestLoop url logger method retryConfig transport rand fuel attempt (some e)
            { result := next.result
              events := step.2 ++ retryEvents ++ next.events
              attemptsUsed := next.attemptsUsed }
          else
            { result := Except.error e
              events := step.2 ++
                (if hasErrorCb logger then [LogEvent.error method url (ErrorPayload.errObj e)] else [])
              attemptsUsed := attempt }

/-- `request` options (src/request.ts lines 195-201): the body is the
JSON-serializable payload, modelled by its serialization. -/
structure RequestOptions where
  method : Option String := none
  params : List (String × QueryVal) := []
  body : Option String := none
deriving DecidableEq

/-- `request` (src/request.ts lines 192-301). The URL and headers are built
once, a pre-send `request` event is logged with the body attached only for
truthy bodies on non-GET methods, and the retry loop runs for up to the
effective `maxAttempts` attempts. The timeout branch (lines 241-253) only
attaches a per-attempt cancellation signal to the fetch call; an abort
surfaces as a `FetchOutcome.throwNet JsErrorKind.abortError` outcome of the
`transport`, so both branches run the same `executeRequest`. -/
def request {T : Type} (config : BacklogConfig) (path : String) (opts : RequestOptions)
    (transport : Nat → FetchOutcome T) (rand : Nat → ℚ) : LoopResult T :=
  let method := opts.method.getD "GET"
  let url := buildUrl config path opts.params
  let headers := buildHeaders config
  let retryConfig := mergeRetryConfig config.retry
  let attachBody := (truthyStr opts.body) && decide (method ≠ "GET")
  let preEvents : List (LogEvent T) :=
    if hasRequestCb config.logger then
      [LogEvent.request method url headers (if attachBody then opts.body else none)]
    else []
  let inner := requestLoop url config.logger method retryConfig transport rand
    retryConfig.maxAttempts 0 none
  { result := inner.result
    events := preEvents ++ inner.events
    attemptsUsed := inner.attemptsUsed }

/-- The double-quote character, written by code point to keep string
literals free of nested quotes. -/
def dquote : Char := Char.ofNat 34

/-- The suffix of `hay` right after the first (leftmost) occurrence of
`needle`, if any. Both regexes of the filename extraction start with a
literal, so a JavaScript `match` anchors at this leftmost occurrence: if
the remainder of the string after it is empty the rest of either pattern
fails there, and since neither literal can overlap itself and the failing
occurrence already reaches the end of the string, no later occurrence can
exist — so leftmost-occurrence matching is exact. -/
def suffixAfterFirst (needle hay : List Char) : Option (List Char) :=
  match hay with
  | [] => none
  | _ :: rest =>
      if needle.isPrefixOf hay then some (hay.drop needle.length)
      else suffixAfterFirst needle rest

/-- The JavaScript match `contentDisposition.match(/filename="?(.+?)"?$/)`
(src/request.ts line 357), returning the captured group. After the literal
`filename=`, the greedy optional quote consumes a leading `"` (backtracking
only when nothing would remain for the mandatory capture), and the lazy
`(.+?)"?$` captures the shortest non-empty prefix of the remainder whose
own remainder is `"` or empty — i.e. everything up to the end of the
string, minus a trailing `"` when one exists and at least one captured
character remains. -/
def jsMatchFilename (cd : String) : Option String :=
  match suffixAfterFirst "filename=".data cd.data with
  | none => none
  | some s =>
      if s = [] then none
      else
        let t := if s.head? = some dquote && s.drop 1 ≠ [] then s.drop 1 else s
        let cap := if 2 ≤ t.length && t.getLast? = some dquote then t.dropLast else t
        some (String.mk cap)

/-- The JavaScript match
`contentDisposition.match(/filename\*=UTF-8''(.+)$/)`
(src/request.ts line 361), returning the captured group: everything after
the leftmost `filename*=UTF-8''`, provided it is non-empty. -/
def jsMatchFilenameStar (cd : String) : Option String :=
  match suffixAfterFirst "filename*=UTF-8\x27\x27".data cd.data with
  | none => none
  | some [] => none
  | some s => some (String.mk s)

/-- Numeric value of one hexadecimal digit character. -/
def hexVal (c : Char) : Option Nat :=
  if 48 ≤ c.toNat && c.toNat ≤ 57 then some (c.toNat - 48)
  else if 65 ≤ c.toNat && c.toNat ≤ 70 then some (c.toNat - 55)
  else if 97 ≤ c.toNat && c.toNat ≤ 102 then some (c.toNat - 87)
  else none

/-- First pass of percent-decoding: each valid `%XX` triple becomes a byte
(`Sum.inr`), every other character passes through (`Sum.inl`). -/
def pctTokens : List Char → List (Char ⊕ Nat)
  | '%' :: a :: b :: rest =>
      match hexVal a, hexVal b with
      | some ha, some hb => Sum.inr (16 * ha + hb) :: pctTokens rest
      | _, _ => Sum.inl '%' :: pctTokens (a :: b :: rest)
  | c :: rest => Sum.inl c :: pctTokens rest
  | [] => []

/-- Second pass of percent-decoding: UTF-8-decode runs of decoded bytes,
pass other characters through. Malformed byte sequences — on which
`decodeURIComponent` throws a `URIError` — are outside the modelled
behaviour and are decoded best-effort. The `fuel` argument, instantiated
with the token-list length, makes the lookahead-consuming recursion
structural (each step consumes at least one token). -/
def decodeTokensGo : Nat → List (Char ⊕ Nat) → List Char
  | 0, _ => []
  | _ + 1, [] => []
  | fuel + 1, Sum.inl c :: rest => c :: decodeTokensGo fuel rest
  | fuel + 1, Sum.inr b :: rest =>
      if b < 128 then Char.ofNat b :: decodeTokensGo fuel rest
      else if b < 192 then decodeTokensGo fuel rest
      else if b < 224 then
        match rest with
        | Sum.inr b2 :: rest2 =>
            Char.ofNat ((b % 32) * 64 + b2 % 64) :: decodeTokensGo fuel rest2
        | _ => decodeTokensGo fuel rest
      else if b < 240 then
        match rest with
        | Sum.inr b2 :: Sum.inr b3 :: rest3 =>
            Char.ofNat ((b % 16) * 4096 + (b2 % 64) * 64 + b3 % 64) :: decodeTokensGo fuel rest3
        | _ => decodeTokensGo fuel rest
      else
        match rest with
        | Sum.inr b2 :: Sum.inr b3 :: Sum.inr b4 :: rest4 =>
            Char.ofNat ((b % 8) * 262144 + (b2 % 64) * 4096 + (b3 % 64) * 64 + b4 % 64) ::
              decodeTokensGo fuel rest4
        | _ => decodeTokensGo fuel rest

/-- `decodeURIComponent` (as applied at src/request.ts line 363):
percent-decode `%XX` triples and UTF-8-decode the resulting byte runs. -/
def percentDecode (s : String) : String :=
  let tokens := pctTokens s.data
  String.mk (decodeTokensGo tokens.length tokens)

/-- The filename extraction of `download` (src/request.ts lines 353-366):
a falsy (absent or empty) `Content-Disposition` header yields no filename;
otherwise the plain `filename=` pattern is tried first and its capture
returned verbatim, and only if it fails is the RFC 5987 `filename*=UTF-8''`
pattern tried, its capture percent-decoded. -/
def extractFileName (contentDisposition : Option String) : Option String :=
  match contentDisposition with
  | none => none
  | some cd =>
      if cd = "" then none
      else
        match jsMatchFilename cd with
        | some name => some name
        | none =>
            match jsMatchFilenameStar cd with
            | some raw => some (percentDecode raw)
            | none => none

/-- The outcome the network hands `download`'s single fetch: an ok response
carrying body bytes and the optional `Content-Disposition` header, a non-ok
response, or a rejected fetch. -/
inductive DownloadFetch where
  | ok (status : Nat) (body : List Nat) (contentDisposition : Option String)
  | nonOk (status : Nat) (statusText : String) (jsonBody : Option BacklogError)
  | throwNet (kind : JsErrorKind) (message : String)
deriving DecidableEq

/-- The value `download` resolves with: the raw body bytes and the
extracted filename, if any. -/
structure DownloadResult where
  body : List Nat
  fileName : Option String
deriving DecidableEq

/-- `download` (src/request.ts lines 306-391), single-attempt: an ok
response returns the raw bytes plus the filename extracted from
`Content-Disposition`; a non-ok response decodes (or synthesizes) the JSON
error body and throws a plain `Error` with the resolved message (no status
attached, no retry); a rejected fetch rethrows. Its log events mirror
`request`'s and are not needed by the claims about it. -/
def download (outcome : DownloadFetch) : Except JsError DownloadResult :=
  match outcome with
  | DownloadFetch.ok _ body contentDisposition =>
      Except.ok { body := body, fileName := extractFileName contentDisposition }
  | DownloadFetch.nonOk status statusText jsonBody =>
      let errorData := jsonBody.getD (synthesizedError status statusText)
      Except.error
        { kind := JsErrorKind.otherError
          message := resolveErrorMessage errorData
          status := none }
  | DownloadFetch.throwNet kind message =>
      Except.error { kind := kind, message := message, status := none }

/-- The characters of the literal `apiKey=` (the regex's literal part). -/
def apiKeyNeedle : List Char := ['a', 'p', 'i', 'K', 'e', 'y', '=']

/-- The characters of the replacement `apiKey=****`. -/
def apiKeyMasked : List Char := ['a', 'p', 'i', 'K', 'e', 'y', '=', '*', '*', '*', '*']

/-- The URL sanitization performed by every callback of the built-in
`consoleLogger` (src/config.ts): `url.replace(/apiKey=([^&]+)/, "apiKey=****")`
— at the first position where the literal `apiKey=` is followed by at
least one non-`&` character, that literal together with the maximal
non-`&` run after it is replaced by `apiKey=****`; everything else is kept
(positions where the run would be empty fail to match and scanning
continues). -/
def sanitizeChars : List Char → List Char
  | [] => []
  | c :: rest =>
      if apiKeyNeedle.isPrefixOf (c :: rest) then
        let s := (c :: rest).drop 7
        let run := s.takeWhile (fun x => x ≠ '&')
        if run = [] then c :: sanitizeChars rest
        else apiKeyMasked ++ s.dropWhile (fun x => x ≠ '&')
      else c :: sanitizeChars rest

/-- The sanitized URL the built-in `consoleLogger` prints (src/config.ts
lines 47, 54 and 63). -/
def consoleLoggerSanitize (url : String) : String :=
  String.mk (sanitizeChars url.data)

/-- The classified failure `executeRequest` throws for a non-ok response
with the given status, status text and decoded body. -/
def httpFailure (status : Nat) (statusText : String) (jsonBody : Option BacklogError) : JsError :=
  { kind := JsErrorKind.httpError
    message := resolveErrorMessage (jsonBody.getD (synthesizedError status statusText))
    status := some status }

/-- Is this log event an invocation of the sink's `error` callback? -/
def isErrorEvent {T : Type} : LogEvent T → Bool
  | LogEvent.error _ _ _ => true
  | _ => false

lemma queryComponents_append (a b : List (String × QueryVal)) :
    queryComponents (a ++ b) = queryComponents a ++ queryComponents b := by
  induction a with
  | nil => simp [queryComponents]
  | cons h t ih =>
      obtain ⟨k, v⟩ := h
      simp [queryComponents, ih]

lemma takeWhile_all_append {α : Type} (p : α → Bool) (a b : List α)
    (ha : ∀ c ∈ a, p c = true) (hb : b = [] ∨ ∃ x xs, b = x :: xs ∧ p x = false) :
    (a ++ b).takeWhile p = a := by
  induction a with
  | nil =>
      rcases hb with rfl | ⟨x, xs, rfl, hx⟩
      · simp
      · simp [List.takeWhile, hx]
  | cons h t ih =>
      have hh := ha h (by simp)
      simp only [List.cons_append, List.takeWhile, hh]
      simp [ih fun c hc => ha c (by simp [hc])]

lemma dropWhile_all_append {α : Type} (p : α → Bool) (a b : List α)
    (ha : ∀ c ∈ a, p c = true) (hb : b = [] ∨ ∃ x xs, b = x :: xs ∧ p x = false) :
    (a ++ b).dropWhile p = b := by
  induction a with
  | nil =>
      rcases hb with rfl | ⟨x, xs, rfl, hx⟩
      · simp
      · simp [List.dropWhile, hx]
  | cons h t ih =>
      have hh := ha h (by simp)
      simp only [List.cons_append, List.dropWhile, hh]
      exact ih fun c hc => ha c (by simp [hc])

/-- Claim C5: for every attempt number `a ≥ 1` and effective retry policy,
with `exponentialBackoff` off the computed delay is `baseDelay`; with it on
the delay equals `min(baseDelay * 2^(a-1) * (1 + j), maxDelay)` for a
jitter fraction `j = rand/10 ∈ [0, 0.1)` (at most 10% on top of the pure
exponential term), and never exceeds `maxDelay`. -/
theorem claim_C5 (attempt : Nat) (rc : RetryConfigR) (rand : ℚ)
    (_ha : 1 ≤ attempt) (h0 : 0 ≤ rand) (h1 : rand < 1) :
    (rc.exponentialBackoff = false → calculateRetryDelay attempt rc rand = rc.baseDelay) ∧
    (rc.exponentialBackoff = true →
      ∃ j : ℚ, 0 ≤ j ∧ j < 1 / 10 ∧
        calculateRetryDelay attempt rc rand =
          min (rc.baseDelay * 2 ^ (attempt - 1) * (1 + j)) rc.maxDelay ∧
        calculateRetryDelay attempt rc rand ≤ rc.maxDelay) := by
  constructor
  · intro h
    simp [calculateRetryDelay, h]
  · intro h
    refine ⟨rand / 10, by positivity, by linarith, ?_, ?_⟩
    · simp only [calculateRetryDelay, h]
      norm_num
      congr 1
      ring
    · simp only [calculateRetryDelay, h]
      norm_num

/-- Witness for C5: the hypotheses hold at attempt 2 with the default
policy and a `Math.random()` draw of 1/2, and the delay evaluates to
2100 ms = min(1000 * 2 * 1.05, 30000). -/
theorem claim_C5_witness :
    ((DEFAULT_RETRY_CONFIG.exponentialBackoff = false →
        calculateRetryDelay 2 DEFAULT_RETRY_CONFIG (1 / 2) = DEFAULT_RETRY_CONFIG.baseDelay) ∧
      (DEFAULT_RETRY_CONFIG.exponentialBackoff = true →
        ∃ j : ℚ, 0 ≤ j ∧ j < 1 / 10 ∧
          calculateRetryDelay 2 DEFAULT_RETRY_CONFIG (1 / 2) =
            min (DEFAULT_RETRY_CONFIG.baseDelay * 2 ^ (2 - 1) * (1 + j))
              DEFAULT_RETRY_CONFIG.maxDelay ∧
          calculateRetryDelay 2 DEFAULT_RETRY_CONFIG (1 / 2) ≤ DEFAULT_RETRY_CONFIG.maxDelay)) ∧
    calculateRetryDelay 2 DEFAULT_RETRY_CONFIG (1 / 2) = 2100 :=
  ⟨claim_C5 2 DEFAULT_RETRY_CONFIG (1 / 2) (by norm_num) (by norm_num) (by norm_num),
    by norm_num [calculateRetryDelay, DEFAULT_RETRY_CONFIG]⟩

/-- Claim C6: `null`/`undefined`-valued entries contribute no component of
the URL; an array entry contributes `key[]=v` components in array order; a
scalar entry contributes exactly one `key=value` component, with booleans
rendered `"true"`/`"false"` and numbers in decimal form; and `buildUrl`
appends `?` plus the query string only when the serialized query string is
non-empty. (`URLSearchParams` form-encodes keys and values, so `key[]`
appears encoded as `key%5B%5D`.) -/
theorem claim_C6 :
    (∀ (p1 p2 : List (String × QueryVal)) (k : String),
        buildQueryString (p1 ++ (k, QueryVal.vNull) :: p2) = buildQueryString (p1 ++ p2) ∧
        buildQueryString (p1 ++ (k, QueryVal.vUndef) :: p2) = buildQueryString (p1 ++ p2)) ∧
    (∀ (p1 p2 : List (String × QueryVal)) (k : String) (items : List ScalarVal),
        queryComponents (p1 ++ (k, QueryVal.vArr items) :: p2) =
          queryComponents p1 ++
            items.map (fun item =>
              urlEncode (k ++ "[]") ++ "=" ++ urlEncode (scalarString item)) ++
            queryComponents p2) ∧
    (∀ (p1 p2 : List (String × QueryVal)) (k s : String),
        queryComponents (p1 ++ (k, QueryVal.vStr s) :: p2) =
          queryComponents p1 ++ [urlEncode k ++ "=" ++ urlEncode s] ++ queryComponents p2) ∧
    (∀ (p1 p2 : List (String × QueryVal)) (k : String) (b : Bool),
        queryComponents (p1 ++ (k, QueryVal.vBool b) :: p2) =
          queryComponents p1 ++ [urlEncode k ++ "=" ++ cond b "true" "false"] ++
            queryComponents p2) ∧
    (∀ (p1 p2 : List (String × QueryVal)) (k : String) (n : Int),
        queryComponents (p1 ++ (k, QueryVal.vNum n) :: p2) =
          queryComponents p1 ++ [urlEncode k ++ "=" ++ urlEncode (toString n)] ++
            queryComponents p2) ∧
    (queryComponents [("n", QueryVal.vNum 42)] = ["n=42"] ∧
      queryComponents [("b", QueryVal.vBool false)] = ["b=false"] ∧
      queryComponents [("ids", QueryVal.vArr [ScalarVal.sNum 1, ScalarVal.sNum 2])] =
        ["ids%5B%5D=1", "ids%5B%5D=2"]) ∧
    (∀ (config : BacklogConfig) (path : String) (params : List (String × QueryVal)),
        buildUrl config path params =
          (let base := (if hostIsLocalhost config.host then "http" else "https") ++
            "://" ++ config.host ++ "/api/v2/" ++ path
           let qs := buildQueryString (effectiveQueryParams config params)
           if qs = "" then base else base ++ "?" ++ qs)) := by
  refine ⟨?_, ?_, ?_, ?_, ?_, ⟨rfl, rfl, rfl⟩, ?_⟩
  · intro p1 p2 k
    constructor <;>
      simp [buildQueryString, queryComponents_append, queryComponents, queryValComponents]
  · intro p1 p2 k items
    simp [queryComponents_append, queryComponents, queryValComponents]
  · intro p1 p2 k s
    simp [queryComponents_append, queryComponents, queryValComponents]
  · intro p1 p2 k b
    cases b <;>
      simp [queryComponents_append, queryComponents, queryValComponents, urlEncode, urlEncodeChar]
  · intro p1 p2 k n
    simp [queryComponents_append, queryComponents, queryValComponents]
  · intro config path params
    rfl

/-- Claim C7: the built header map always contains
`Content-Type: application/json`; it contains `Authorization: Bearer {token}`
exactly when a (truthy, i.e. non-empty) access token is configured; the
headers are independent of the API key and no header is named `apiKey`;
and a configured API key appears in the serialized query as the final
`apiKey=...` component (when the caller's params do not themselves use the
key `apiKey`), so API-key authentication travels only in the URL query
string. -/
theorem claim_C7 :
    (∀ config : BacklogConfig, ("Content-Type", "application/json") ∈ buildHeaders config) ∧
    (∀ (config : BacklogConfig) (t : String), config.accessToken = some t → t ≠ "" →
        ("Authorization", "Bearer " ++ t) ∈ buildHeaders config) ∧
    (∀ config : BacklogConfig, truthyStr config.accessToken = false →
        ∀ v : String, ("Authorization", v) ∉ buildHeaders config) ∧
    (∀ (config : BacklogConfig) (o : Option String),
        buildHeaders { config with apiKey := o } = buildHeaders config) ∧
    (∀ (config : BacklogConfig) (kv : String × String), kv ∈ buildHeaders config →
        kv.1 = "Content-Type" ∨ kv.1 = "Authorization") ∧
    (∀ (config : BacklogConfig) (params : List (String × QueryVal)) (key : String),
        config.apiKey = some key → key ≠ "" →
        (∀ p ∈ params, p.1 ≠ "apiKey") →
        queryComponents (effectiveQueryParams config params) =
          queryComponents params ++ ["apiKey=" ++ urlEncode key]) := by
  refine ⟨?_, ?_, ?_, ?_, ?_, ?_⟩
  · intro config
    simp [buildHeaders]
  · intro config t hsome hne
    simp [buildHeaders, hsome, hne]
  · intro config hfalsy v
    match hak : config.accessToken with
    | none => simp [buildHeaders, hak]
    | some t =>
        have ht : t = "" := by
          simpa [truthyStr, hak] using hfalsy
        simp [buildHeaders, hak, ht]
  · intro config o
    rfl
  · intro config kv hmem
    rw [buildHeaders] at hmem
    rcases List.mem_cons.mp hmem with rfl | h
    · exact Or.inl rfl
    · cases hak : config.accessToken with
      | none =>
          rw [hak] at h
          simp at h
      | some t =>
          rw [hak] at h
          by_cases ht : t = ""
          · simp [ht] at h
          · simp [ht] at h
            rw [h]
            exact Or.inr rfl
  · intro config params key hsome hne hnokey
    have hany : params.any (fun p => p.1 = "apiKey") = false := by
      simp only [List.any_eq_false]
      intro p hp
      simp [hnokey p hp]
    simp only [effectiveQueryParams, hsome, if_neg hne, setApiKey, hany, Bool.false_eq_true,
      if_false, queryComponents_append]
    rfl

/-- Witness for C7: at a concrete configuration with both credentials the
content type and bearer header are present and the `apiKey` component is
appended to the serialized query. -/
theorem claim_C7_witness :
    ("Content-Type", "application/json") ∈
        buildHeaders { host := "example.com", apiKey := some "KEY", accessToken := some "tok" } ∧
    ("Authorization", "Bearer tok") ∈
        buildHeaders { host := "example.com", apiKey := some "KEY", accessToken := some "tok" } ∧
    queryComponents (effectiveQueryParams
        { host := "example.com", apiKey := some "KEY", accessToken := some "tok" }
        [("q", QueryVal.vStr "v")]) =
      queryComponents [("q", QueryVal.vStr "v")] ++ ["apiKey=" ++ urlEncode "KEY"] :=
  ⟨claim_C7.1 _,
    claim_C7.2.1 _ "tok" rfl (by decide),
    claim_C7.2.2.2.2.2 _ [("q", QueryVal.vStr "v")] "KEY" rfl (by decide)
      (by intro p hp; simp at hp; simp [hp])⟩

/-- Counterexample to claim C8 as stated: for the decoded error body
`{message: "A", errors: [{message: "", code: 1}]}` the nested `errors` list
is present and non-empty, yet the thrown error's message is the top-level
`"A"`, not the first element's message `""` — JavaScript `||` lets an
empty-string nested message fall through
(`errorData.errors?.[0]?.message || errorData.message || "Unknown error"`). -/
theorem claim_C8_counterexample :
    resolveErrorMessage
      { message := "A", code := none,
        errors := some [{ message := "", code := 1 }] } = "A" ∧
    ("A" : String) ≠ "" ∧
    (request { host := "example.com" } "p" {}
        (fun _ => FetchOutcome.nonOk 400 "Bad Request"
          (some { message := "A", code := none, errors := some [{ message := "", code := 1 }] }))
        (fun _ => (0 : ℚ)) : LoopResult Bool).result =
      Except.error { kind := JsErrorKind.httpError, message := "A", status := some 400 } :=
  ⟨rfl, by decide, rfl⟩

/-- Claim C8 as amended: the thrown error's message is the first element's
message of the nested `errors` list when that list is present, non-empty
and its first message is a non-empty string; otherwise the top-level
`message` when it is non-empty; otherwise `"Unknown error"` (JavaScript
`||` treats the empty string like an absent value at each step). In
particular the body `{message:"A", errors:[{message:"B", code:1}]}` makes
`request` raise an error whose message is `"B"`. -/
theorem claim_C8_amended :
    (∀ (e : BacklogError) (h : BacklogNestedError) (t : List BacklogNestedError),
        e.errors = some (h :: t) → h.message ≠ "" → resolveErrorMessage e = h.message) ∧
    (∀ e : BacklogError,
        (match e.errors with | some (h :: _) => h.message = "" | _ => True) →
        e.message ≠ "" → resolveErrorMessage e = e.message) ∧
    (∀ e : BacklogError,
        (match e.errors with | some (h :: _) => h.message = "" | _ => True) →
        e.message = "" → resolveErrorMessage e = "Unknown error") ∧
    (request { host := "example.com" } "p" {}
        (fun _ => FetchOutcome.nonOk 400 "Bad Request"
          (some { message := "A", code := none, errors := some [{ message := "B", code := 1 }] }))
        (fun _ => (0 : ℚ)) : LoopResult Bool).result =
      Except.error { kind := JsErrorKind.httpError, message := "B", status := some 400 } := by
  refine ⟨?_, ?_, ?_, rfl⟩
  · intro e h t hers hne
    simp [resolveErrorMessage, hers, hne]
  · intro e hnested hne
    match hers : e.errors with
    | none => simp [resolveErrorMessage, hers, hne]
    | some [] => simp [resolveErrorMessage, hers, hne]
    | some (h :: t) =>
        rw [hers] at hnested
        simp [resolveErrorMessage, hers, hnested, hne]
  · intro e hnested hempty
    match hers : e.errors with
    | none => simp [resolveErrorMessage, hers, hempty]
    | some [] => simp [resolveErrorMessage, hers, hempty]
    | some (h :: t) =>
        rw [hers] at hnested
        simp [resolveErrorMessage, hers, hnested, hempty]

/-- Witness for the amended C8: applied to the spec's own example body the
resolved message is the nested `"B"`. -/
theorem claim_C8_witness :
    resolveErrorMessage
      { message := "A", code := none,
        errors := some [{ message := "B", code := 1 }] } = "B" :=
  claim_C8_amended.1 _ { message := "B", code := 1 } [] rfl (by decide)

/-- Claim C9: a successful download's `fileName` comes from the
`Content-Disposition` header: the plain `filename=` pattern (quotes
optional, matched up to end of string, surrounding quotes trimmed) is tried
first and wins with its captured value; otherwise the RFC 5987
`filename*=UTF-8''` pattern yields the percent-decoded remainder; if
neither matches, or the header is absent, `fileName` is absent. -/
theorem claim_C9 :
    (∀ (st : Nat) (body : List Nat) (cd : Option String),
        download (DownloadFetch.ok st body cd) =
          Except.ok { body := body, fileName := extractFileName cd }) ∧
    (∀ cd v : String, jsMatchFilename cd = some v → extractFileName (some cd) = some v) ∧
    (∀ cd v : String, jsMatchFilename cd = none → jsMatchFilenameStar cd = some v →
        extractFileName (some cd) = some (percentDecode v)) ∧
    (∀ cd : String, jsMatchFilename cd = none → jsMatchFilenameStar cd = none →
        extractFileName (some cd) = none) ∧
    extractFileName none = none ∧
    extractFileName (some "attachment; filename=\x22x.png\x22") = some "x.png" ∧
    extractFileName (some "attachment; filename=y.txt") = some "y.txt" ∧
    extractFileName (some "attachment; filename*=UTF-8\x27\x27a%20b.txt") =
      some "a b.txt" := by
  refine ⟨fun st body cd => rfl, ?_, ?_, ?_, rfl, rfl, rfl, rfl⟩
  · intro cd v h1
    by_cases hcd : cd = ""
    · subst hcd
      simp only [show jsMatchFilename "" = none from rfl] at h1
      exact Option.noConfusion h1
    · simp [extractFileName, hcd, h1]
  · intro cd v h1 h2
    by_cases hcd : cd = ""
    · subst hcd
      simp only [show jsMatchFilenameStar "" = none from rfl] at h2
      exact Option.noConfusion h2
    · simp [extractFileName, hcd, h1, h2]
  · intro cd h1 h2
    by_cases hcd : cd = ""
    · simp [extractFileName, hcd]
    · simp [extractFileName, hcd, h1, h2]

/-- Witness for C9: the branch lemmas applied at concrete headers — a
plain unquoted filename, and an RFC 5987 extended filename (the plain
pattern fails on it because `filename` is followed by `*`, not `=`). -/
theorem claim_C9_witness :
    extractFileName (some "filename=abc") = some "abc" ∧
    extractFileName (some "x; filename*=UTF-8\x27\x27p%2Fq") = some (percentDecode "p%2Fq") :=
  ⟨claim_C9.2.1 "filename=abc" "abc" rfl,
    claim_C9.2.2.1 "x; filename*=UTF-8\x27\x27p%2Fq" "p%2Fq" (by decide) rfl⟩

lemma sanitize_skip (c : Char) (rest : List Char)
    (h : apiKeyNeedle.isPrefixOf (c :: rest) = false) :
    sanitizeChars (c :: rest) = c :: sanitizeChars rest := by
  simp only [sanitizeChars]
  simp [h]

lemma sanitize_hit (key suffix : List Char) (hkey : key ≠ [])
    (hkeyamp : ∀ c ∈ key, c ≠ '&')
    (hsuf : suffix = [] ∨ ∃ xs, suffix = '&' :: xs) :
    sanitizeChars (apiKeyNeedle ++ (key ++ suffix)) = apiKeyMasked ++ suffix := by
  have htw : (key ++ suffix).takeWhile (fun x => decide (x ≠ '&')) = key := by
    refine takeWhile_all_append _ key suffix (fun c hc => by simp [hkeyamp c hc]) ?_
    rcases hsuf with rfl | ⟨xs, rfl⟩
    · exact Or.inl rfl
    · exact Or.inr ⟨'&', xs, rfl, by simp⟩
  have hdw : (key ++ suffix).dropWhile (fun x => decide (x ≠ '&')) = suffix := by
    refine dropWhile_all_append _ key suffix (fun c hc => by simp [hkeyamp c hc]) ?_
    rcases hsuf with rfl | ⟨xs, rfl⟩
    · exact Or.inl rfl
    · exact Or.inr ⟨'&', xs, rfl, by simp⟩
  have hguard : apiKeyNeedle.isPrefixOf
      ('a' :: (['p', 'i', 'K', 'e', 'y', '='] ++ (key ++ suffix))) = true := by
    show apiKeyNeedle.isPrefixOf (apiKeyNeedle ++ (key ++ suffix)) = true
    simp [apiKeyNeedle, List.isPrefixOf]
  have hdrop : ('a' :: (['p', 'i', 'K', 'e', 'y', '='] ++ (key ++ suffix))).drop 7 =
      key ++ suffix := by
    show (apiKeyNeedle ++ (key ++ suffix)).drop 7 = key ++ suffix
    simp [apiKeyNeedle]
  rw [show apiKeyNeedle ++ (key ++ suffix) =
    'a' :: (['p', 'i', 'K', 'e', 'y', '='] ++ (key ++ suffix)) from rfl]
  simp only [sanitizeChars, hguard, hdrop, htw, hdw]
  simp [hkey]

lemma sanitizeChars_replace (pre key suffix : List Char)
    (hpre : ∀ i, i < pre.length →
      apiKeyNeedle.isPrefixOf ((pre ++ (apiKeyNeedle ++ (key ++ suffix))).drop i) = false)
    (hkey : key ≠ []) (hkeyamp : ∀ c ∈ key, c ≠ '&')
    (hsuf : suffix = [] ∨ ∃ xs, suffix = '&' :: xs) :
    sanitizeChars (pre ++ (apiKeyNeedle ++ (key ++ suffix))) =
      pre ++ (apiKeyMasked ++ suffix) := by
  induction pre with
  | nil => simpa using sanitize_hit key suffix hkey hkeyamp hsuf
  | cons c pre ih =>
      have h0 := hpre 0 (by simp)
      rw [List.drop_zero, List.cons_append] at h0
      rw [List.cons_append, sanitize_skip c _ h0, List.cons_append]
      rw [ih]
      intro i hi
      have := hpre (i + 1) (by simpa using Nat.succ_lt_succ hi)
      simpa [List.cons_append] using this

/-- Counterexample to claim C1 as stated: with a logging sink configured,
`request` hands the logger's `request` callback the raw built URL — two
runs differing only in the configured `apiKey` hand different URL strings
to the sink, and the logged URL contains the literal key
(`src/request.ts` lines 224-231 pass `url` unsanitized). -/
theorem claim_C1_counterexample :
    (request
        { host := "example.com", apiKey := some "SECRETKEY",
          logger := some { hasRequest := true, hasResponse := true, hasError := true } }
        "space" {} (fun _ => FetchOutcome.ok 200 true) (fun _ => (0 : ℚ))).events.head? ≠
      (request
        { host := "example.com", apiKey := some "OTHERKEY00",
          logger := some { hasRequest := true, hasResponse := true, hasError := true } }
        "space" {} (fun _ => FetchOutcome.ok 200 true) (fun _ => (0 : ℚ))).events.head? ∧
    (request
        { host := "example.com", apiKey := some "SECRETKEY",
          logger := some { hasRequest := true, hasResponse := true, hasError := true } }
        "space" {} (fun _ => FetchOutcome.ok 200 true) (fun _ => (0 : ℚ))).events.head? =
      some (LogEvent.request "GET" "https://example.com/api/v2/space?apiKey=SECRETKEY"
        [("Content-Type", "application/json")] none) :=
  ⟨by decide, rfl⟩

/-- Claim C1 as amended: the core hands every logger callback the raw
built URL, whose query carries the literal configured `apiKey` value (so
runs differing only in the key hand different URLs to the sink); the
masking of the `apiKey` value by the fixed placeholder `****` is performed
only by the built-in `consoleLogger`, which rewrites the URL with
`url.replace(/apiKey=([^&]+)/, "apiKey=****")` before printing it. -/
theorem claim_C1_amended :
    (∀ (T : Type) (config : BacklogConfig) (path : String) (opts : RequestOptions)
        (transport : Nat → FetchOutcome T) (rand : Nat → ℚ),
        hasRequestCb config.logger = true →
        (request config path opts transport rand).events.head? =
          some (LogEvent.request (opts.method.getD "GET") (buildUrl config path opts.params)
            (buildHeaders config)
            (if truthyStr opts.body && decide (opts.method.getD "GET" ≠ "GET")
             then opts.body else none))) ∧
    (∀ (pre key suffix : List Char),
        (∀ i, i < pre.length →
          apiKeyNeedle.isPrefixOf ((pre ++ (apiKeyNeedle ++ (key ++ suffix))).drop i) = false) →
        key ≠ [] → (∀ c ∈ key, c ≠ '&') →
        (suffix = [] ∨ ∃ xs, suffix = '&' :: xs) →
        consoleLoggerSanitize (String.mk (pre ++ (apiKeyNeedle ++ (key ++ suffix)))) =
          String.mk (pre ++ (apiKeyMasked ++ suffix))) ∧
    consoleLoggerSanitize "https://example.com/api/v2/space?apiKey=SECRETKEY" =
      "https://example.com/api/v2/space?apiKey=****" := by
  refine ⟨?_, ?_, rfl⟩
  · intro T config path opts transport rand hreq
    simp only [request, hreq, if_true, List.singleton_append, List.head?_cons]
  · intro pre key suffix hpre hkey hkeyamp hsuf
    show String.mk (sanitizeChars (String.mk (pre ++ (apiKeyNeedle ++ (key ++ suffix)))).data) = _
    rw [show (String.mk (pre ++ (apiKeyNeedle ++ (key ++ suffix)))).data =
      pre ++ (apiKeyNeedle ++ (key ++ suffix)) from rfl]
    rw [sanitizeChars_replace pre key suffix hpre hkey hkeyamp hsuf]

/-- Witness for the amended C1: at a concrete configuration the first
logged event carries the raw URL with the literal key, and the
`consoleLogger` rewrite masks that key. -/
theorem claim_C1_witness :
    (request
        { host := "example.com", apiKey := some "SECRETKEY",
          logger := some { hasRequest := true, hasResponse := true, hasError := true } }
        "space" {} (fun _ => FetchOutcome.ok 200 true) (fun _ => (0 : ℚ))).events.head? =
      some (LogEvent.request "GET"
        (buildUrl
          { host := "example.com", apiKey := some "SECRETKEY",
            logger := some { hasRequest := true, hasResponse := true, hasError := true } }
          "space" [])
        (buildHeaders
          { host := "example.com", apiKey := some "SECRETKEY",
            logger := some { hasRequest := true, hasResponse := true, hasError := true } })
        none) ∧
    consoleLoggerSanitize (String.mk ([] ++ (apiKeyNeedle ++ ("SECRETKEY".data ++ [])))) =
      String.mk ([] ++ (apiKeyMasked ++ [])) :=
  ⟨claim_C1_amended.1 Bool _ "space" {} (fun _ => FetchOutcome.ok 200 true) (fun _ => (0 : ℚ)) rfl,
    claim_C1_amended.2.1 [] "SECRETKEY".data []
      (fun i hi => absurd hi (Nat.not_lt_zero i)) (by decide) (by decide) (Or.inl rfl)⟩

lemma requestLoop_succ_ok {T : Type} {url : String} {lg : Option Logger} {m : String}
    {rc : RetryConfigR} {transport : Nat → FetchOutcome T} {rand : Nat → ℚ}
    {fuel attemptsDone : Nat} {lastError : Option JsError} {st : Nat} {data : T}
    (hok : transport (attemptsDone + 1) = FetchOutcome.ok st data) :
    requestLoop url lg m rc transport rand (fuel + 1) attemptsDone lastError =
      { result := Except.ok data
        events := if hasResponseCb lg then [LogEvent.response m url st data] else []
        attemptsUsed := attemptsDone + 1 } := by
  simp only [requestLoop, hok, executeRequest]

lemma requestLoop_succ_noRetry {T : Type} {url : String} {lg : Option Logger} {m : String}
    {rc : RetryConfigR} {transport : Nat → FetchOutcome T} {rand : Nat → ℚ}
    {fuel attemptsDone : Nat} {lastError : Option JsError} {e : JsError}
    {evs : List (LogEvent T)}
    (hstep : executeRequest url lg m (transport (attemptsDone + 1)) = (Except.error e, evs))
    (hsr : (decide (attemptsDone + 1 < rc.maxAttempts) &&
      (isRetryableError e || statusRetryable e rc)) = false) :
    requestLoop url lg m rc transport rand (fuel + 1) attemptsDone lastError =
      { result := Except.error e
        events := evs ++
          (if hasErrorCb lg then [LogEvent.error m url (ErrorPayload.errObj e)] else [])
        attemptsUsed := attemptsDone + 1 } := by
  simp only [requestLoop, hstep, hsr]
  simp

lemma requestLoop_succ_retry {T : Type} {url : String} {lg : Option Logger} {m : String}
    {rc : RetryConfigR} {transport : Nat → FetchOutcome T} {rand : Nat → ℚ}
    {fuel attemptsDone : Nat} {lastError : Option JsError} {e : JsError}
    {evs : List (LogEvent T)}
    (hstep : executeRequest url lg m (transport (attemptsDone + 1)) = (Except.error e, evs))
    (hsr : (decide (attemptsDone + 1 < rc.maxAttempts) &&
      (isRetryableError e || statusRetryable e rc)) = true) :
    requestLoop url lg m rc transport rand (fuel + 1) attemptsDone lastError =
      { result := (requestLoop url lg m rc transport rand fuel (attemptsDone + 1) (some e)).result
        events := evs ++
          (if hasErrorCb lg then
            [LogEvent.error m url (ErrorPayload.retryInfo (attemptsDone + 1) rc.maxAttempts
              (calculateRetryDelay (attemptsDone + 1) rc (rand (attemptsDone + 1)))
              (if e.message = "" then "Unknown error" else e.message))]
          else []) ++
          (requestLoop url lg m rc transport rand fuel (attemptsDone + 1) (some e)).events
        attemptsUsed :=
          (requestLoop url lg m rc transport rand fuel (attemptsDone + 1) (some e)).attemptsUsed } := by
  simp only [requestLoop, hstep, hsr]
  simp

lemma requestLoop_allFail_retryable {T : Type} (url : String) (lg : Option Logger) (m : String)
    (rc : RetryConfigR) (st : Nat) (stx : String) (body : Option BacklogError) (rand : Nat → ℚ)
    (hr : isRetryableStatusCode st rc = true) (h0 : st ≠ 0) :
    ∀ (fuel attemptsDone : Nat) (lastError : Option JsError), 1 ≤ fuel →
      attemptsDone + fuel = rc.maxAttempts →
      (requestLoop url lg m rc (fun _ => FetchOutcome.nonOk st stx body :
          Nat → FetchOutcome T) rand fuel attemptsDone lastError).result =
        Except.error (httpFailure st stx body) ∧
      (requestLoop url lg m rc (fun _ => FetchOutcome.nonOk st stx body :
          Nat → FetchOutcome T) rand fuel attemptsDone lastError).attemptsUsed =
        rc.maxAttempts := by
  intro fuel
  induction fuel with
  | zero =>
      intro attemptsDone lastError h1 _
      exact absurd h1 (by omega)
  | succ n ih =>
      intro attemptsDone lastError _ hsum
      have hstep : executeRequest url lg m
          ((fun _ => FetchOutcome.nonOk st stx body : Nat → FetchOutcome T) (attemptsDone + 1)) =
          (Except.error (httpFailure st stx body),
            if hasErrorCb lg then
              [LogEvent.error m url (ErrorPayload.errData (body.getD (synthesizedError st stx)))]
            else []) := by
        simp [executeRequest, httpFailure]
      rcases Nat.eq_zero_or_pos n with hn | hn
      · subst hn
        have hmax : attemptsDone + 1 = rc.maxAttempts := by omega
        have hsr : (decide (attemptsDone + 1 < rc.maxAttempts) &&
            (isRetryableError (httpFailure st stx body) ||
              statusRetryable (httpFailure st stx body) rc)) = false := by
          simp [hmax]
        rw [requestLoop_succ_noRetry hstep hsr]
        exact ⟨rfl, hmax⟩
      · have hlt : attemptsDone + 1 < rc.maxAttempts := by omega
        have hsr : (decide (attemptsDone + 1 < rc.maxAttempts) &&
            (isRetryableError (httpFailure st stx body) ||
              statusRetryable (httpFailure st stx body) rc)) = true := by
          simp [hlt, isRetryableError, statusRetryable, httpFailure, hr, h0]
        rw [requestLoop_succ_retry hstep hsr]
        obtain ⟨ih1, ih2⟩ := ih (attemptsDone + 1) (some (httpFailure st stx body))
          (by omega) (by omega)
        exact ⟨ih1, ih2⟩

/-- Claim C2: against a server whose every response carries the same fixed
non-2xx status, `request` with effective `maxAttempts = K ≥ 1` performs
exactly K attempts and raises the last attempt's classified error when the
status is in the policy's retryable set, and performs exactly 1 attempt
and raises when it is not — regardless of K. The status is assumed nonzero
(every HTTP status is ≥ 100; the source's truthiness check
`errorWithStatus.status &&` would treat a literal status 0 as
non-retryable). -/
theorem claim_C2 {T : Type} (config : BacklogConfig) (path : String) (opts : RequestOptions)
    (rand : Nat → ℚ) (st : Nat) (statusText : String) (body : Option BacklogError) (K : Nat)
    (hK : (mergeRetryConfig config.retry).maxAttempts = K) (hK1 : 1 ≤ K) (h0 : st ≠ 0) :
    (isRetryableStatusCode st (mergeRetryConfig config.retry) = true →
      (request config path opts (fun _ => FetchOutcome.nonOk st statusText body :
          Nat → FetchOutcome T) rand).attemptsUsed = K ∧
      (request config path opts (fun _ => FetchOutcome.nonOk st statusText body :
          Nat → FetchOutcome T) rand).result =
        Except.error (httpFailure st statusText body)) ∧
    (isRetryableStatusCode st (mergeRetryConfig config.retry) = false →
      (request config path opts (fun _ => FetchOutcome.nonOk st statusText body :
          Nat → FetchOutcome T) rand).attemptsUsed = 1 ∧
      (request config path opts (fun _ => FetchOutcome.nonOk st statusText body :
          Nat → FetchOutcome T) rand).result =
        Except.error (httpFailure st statusText body)) := by
  constructor
  · intro hr
    obtain ⟨h1, h2⟩ := requestLoop_allFail_retryable
      (buildUrl config path opts.params) config.logger
      (opts.method.getD "GET") (mergeRetryConfig config.retry)
      st statusText body rand hr h0
      (mergeRetryConfig config.retry).maxAttempts 0 none (by omega) (by omega)
    constructor
    · simp only [request]
      rw [h2, hK]
    · simp only [request]
      rw [h1]
  · intro hnr
    have hstep : executeRequest (buildUrl config path opts.params) config.logger
        (opts.method.getD "GET")
        ((fun _ => FetchOutcome.nonOk st statusText body : Nat → FetchOutcome T) (0 + 1)) =
        (Except.error (httpFailure st statusText body),
          if hasErrorCb config.logger then
            [LogEvent.error (opts.method.getD "GET") (buildUrl config path opts.params)
              (ErrorPayload.errData (body.getD (synthesizedError st statusText)))]
          else []) := by
      simp [executeRequest, httpFailure]
    have hsr : (decide (0 + 1 < (mergeRetryConfig config.retry).maxAttempts) &&
        (isRetryableError (httpFailure st statusText body) ||
          statusRetryable (httpFailure st statusText body) (mergeRetryConfig config.retry))) =
        false := by
      simp [isRetryableError, statusRetryable, httpFailure, hnr]
    have hfuel : (mergeRetryConfig config.retry).maxAttempts =
        ((mergeRetryConfig config.retry).maxAttempts - 1) + 1 := by omega
    constructor
    · simp only [request]
      rw [hfuel, requestLoop_succ_noRetry hstep hsr]
    · simp only [request]
      rw [hfuel, requestLoop_succ_noRetry hstep hsr]

/-- Witness for C2: against a constantly failing server, a retryable
status (500) exhausts the default 3 attempts while a non-retryable status
(404) stops after 1; the raised error is the classified HTTP failure. -/
theorem claim_C2_witness :
    ((request { host := "example.com" } "p" {}
        (fun _ => FetchOutcome.nonOk 500 "ISE" none : Nat → FetchOutcome Bool)
        (fun _ => (0 : ℚ))).attemptsUsed = 3 ∧
      (request { host := "example.com" } "p" {}
        (fun _ => FetchOutcome.nonOk 500 "ISE" none : Nat → FetchOutcome Bool)
        (fun _ => (0 : ℚ))).result = Except.error (httpFailure 500 "ISE" none)) ∧
    ((request { host := "example.com" } "p" {}
        (fun _ => FetchOutcome.nonOk 404 "Not Found" none : Nat → FetchOutcome Bool)
        (fun _ => (0 : ℚ))).attemptsUsed = 1 ∧
      (request { host := "example.com" } "p" {}
        (fun _ => FetchOutcome.nonOk 404 "Not Found" none : Nat → FetchOutcome Bool)
        (fun _ => (0 : ℚ))).result = Except.error (httpFailure 404 "Not Found" none)) :=
  ⟨(claim_C2 { host := "example.com" } "p" {} (fun _ => (0 : ℚ)) 500 "ISE" none 3
      rfl (by omega) (by omega)).1 rfl,
    (claim_C2 { host := "example.com" } "p" {} (fun _ => (0 : ℚ)) 404 "Not Found" none 3
      rfl (by omega) (by omega)).2 rfl⟩

lemma requestLoop_prefixFail {T : Type} (url : String) (lg : Option Logger) (m : String)
    (rc : RetryConfigR) (transport : Nat → FetchOutcome T) (rand : Nat → ℚ) (N : Nat)
    (sts : Nat → Nat) (stx : Nat → String) (bodies : Nat → Option BacklogError)
    (okSt : Nat) (data : T)
    (hfail : ∀ a, 1 ≤ a → a ≤ N → transport a = FetchOutcome.nonOk (sts a) (stx a) (bodies a))
    (hret : ∀ a, 1 ≤ a → a ≤ N → isRetryableStatusCode (sts a) rc = true ∧ sts a ≠ 0)
    (hok : transport (N + 1) = FetchOutcome.ok okSt data)
    (hmax : N < rc.maxAttempts) :
    ∀ (fuel attemptsDone : Nat) (lastError : Option JsError), attemptsDone ≤ N →
      N + 1 ≤ attemptsDone + fuel →
      (requestLoop url lg m rc transport rand fuel attemptsDone lastError).result =
        Except.ok data ∧
      (requestLoop url lg m rc transport rand fuel attemptsDone lastError).attemptsUsed =
        N + 1 := by
  intro fuel
  induction fuel with
  | zero =>
      intro attemptsDone lastError h1 h2
      exact absurd h2 (by omega)
  | succ n ih =>
      intro attemptsDone lastError h1 _
      by_cases haD : attemptsDone = N
      · subst haD
        rw [requestLoop_succ_ok hok]
        exact ⟨rfl, rfl⟩
      · have haN : attemptsDone + 1 ≤ N := by omega
        have hstep : executeRequest url lg m (transport (attemptsDone + 1)) =
            (Except.error (httpFailure (sts (attemptsDone + 1)) (stx (attemptsDone + 1))
                (bodies (attemptsDone + 1))),
              if hasErrorCb lg then
                [LogEvent.error m url (ErrorPayload.errData
                  ((bodies (attemptsDone + 1)).getD
                    (synthesizedError (sts (attemptsDone + 1)) (stx (attemptsDone + 1)))))]
              else []) := by
          rw [hfail (attemptsDone + 1) (by omega) haN]
          simp [executeRequest, httpFailure]
        obtain ⟨hr, h0⟩ := hret (attemptsDone + 1) (by omega) haN
        have hsr : (decide (attemptsDone + 1 < rc.maxAttempts) &&
            (isRetryableError (httpFailure (sts (attemptsDone + 1)) (stx (attemptsDone + 1))
                (bodies (attemptsDone + 1))) ||
              statusRetryable (httpFailure (sts (attemptsDone + 1)) (stx (attemptsDone + 1))
                (bodies (attemptsDone + 1))) rc)) = true := by
          simp [show attemptsDone + 1 < rc.maxAttempts by omega, isRetryableError,
            statusRetryable, httpFailure, hr, h0]
        rw [requestLoop_succ_retry hstep hsr]
        exact ih (attemptsDone + 1) _ haN (by omega)

/-- Claim C3: if the server fails the first N attempts with statuses from
the default retryable set and succeeds on attempt N+1 with a 2xx JSON
response, and the effective `maxAttempts` exceeds N, then `request`
returns the decoded value of the successful attempt after exactly N+1
attempts — no intermediate failure is visible in the returned value. -/
theorem claim_C3 {T : Type} (config : BacklogConfig) (path : String) (opts : RequestOptions)
    (rand : Nat → ℚ) (N : Nat) (okSt : Nat) (data : T)
    (sts : Nat → Nat) (stx : Nat → String) (bodies : Nat → Option BacklogError)
    (hset : (mergeRetryConfig config.retry).retryableStatusCodes =
      DEFAULT_RETRY_CONFIG.retryableStatusCodes)
    (hmem : ∀ a, 1 ≤ a → a ≤ N → sts a ∈ DEFAULT_RETRY_CONFIG.retryableStatusCodes)
    (hmax : N < (mergeRetryConfig config.retry).maxAttempts) :
    (request config path opts
        (fun a => if a ≤ N then FetchOutcome.nonOk (sts a) (stx a) (bodies a)
          else FetchOutcome.ok okSt data) rand).result = Except.ok data ∧
    (request config path opts
        (fun a => if a ≤ N then FetchOutcome.nonOk (sts a) (stx a) (bodies a)
          else FetchOutcome.ok okSt data) rand).attemptsUsed = N + 1 := by
  have hret : ∀ a, 1 ≤ a → a ≤ N →
      isRetryableStatusCode (sts a) (mergeRetryConfig config.retry) = true ∧ sts a ≠ 0 := by
    intro a ha1 ha2
    have hm := hmem a ha1 ha2
    simp only [DEFAULT_RETRY_CONFIG] at hm
    rw [List.mem_cons, List.mem_cons, List.mem_cons, List.mem_cons, List.mem_singleton] at hm
    rcases hm with h | h | h | h | h <;>
      simp [isRetryableStatusCode, hset, DEFAULT_RETRY_CONFIG, h]
  obtain ⟨h1, h2⟩ := requestLoop_prefixFail
    (buildUrl config path opts.params) config.logger
    (opts.method.getD "GET") (mergeRetryConfig config.retry)
    (fun a => if a ≤ N then FetchOutcome.nonOk (sts a) (stx a) (bodies a)
      else FetchOutcome.ok okSt data) rand
    N sts stx bodies okSt data
    (fun a ha1 ha2 => by simp [ha2])
    hret (by simp) hmax
    (mergeRetryConfig config.retry).maxAttempts 0 none (by omega) (by omega)
  constructor
  · simp only [request]
    rw [h1]
  · simp only [request]
    rw [h2]

/-- Witness for C3: two failures with status 500 then a success; the call
returns the decoded value and the server observed exactly 3 requests. -/
theorem claim_C3_witness :
    (request { host := "example.com" } "p" {}
        (fun a => if a ≤ 2 then FetchOutcome.nonOk 500 "ISE" none
          else FetchOutcome.ok 200 true) (fun _ => (0 : ℚ))).result = Except.ok true ∧
    (request { host := "example.com" } "p" {}
        (fun a => if a ≤ 2 then FetchOutcome.nonOk 500 "ISE" none
          else FetchOutcome.ok 200 true) (fun _ => (0 : ℚ))).attemptsUsed = 2 + 1 :=
  claim_C3 { host := "example.com" } "p" {} (fun _ => (0 : ℚ)) 2 200 true
    (fun _ => 500) (fun _ => "ISE") (fun _ => none) rfl
    (fun a _ _ => by simp [DEFAULT_RETRY_CONFIG]) (by decide)

/-- Claim C4: a timeout-triggered abort of an attempt's network call is
classified non-retryable and immediately becomes the call's terminal
error, even when further attempts remain: at whatever loop state an
`AbortError` outcome occurs, the loop stops with exactly that one more
attempt and raises the abort error. -/
theorem claim_C4 {T : Type} (config : BacklogConfig) (path : String) (opts : RequestOptions)
    (transport : Nat → FetchOutcome T) (rand : Nat → ℚ) (t : Nat) (msg : String)
    (_htimeout : config.timeout = some t) (_ht : 0 < t)
    (habort : transport 1 = FetchOutcome.throwNet JsErrorKind.abortError msg)
    (hK : 1 ≤ (mergeRetryConfig config.retry).maxAttempts) :
    isRetryableError { kind := JsErrorKind.abortError, message := msg, status := none } = false ∧
    (request config path opts transport rand).result =
      Except.error { kind := JsErrorKind.abortError, message := msg, status := none } ∧
    (request config path opts transport rand).attemptsUsed = 1 ∧
    (∀ (fuel attemptsDone : Nat) (lastError : Option JsError) (msg2 : String),
        1 ≤ fuel →
        transport (attemptsDone + 1) = FetchOutcome.throwNet JsErrorKind.abortError msg2 →
        (requestLoop (buildUrl config path opts.params) config.logger (opts.method.getD "GET")
            (mergeRetryConfig config.retry) transport rand fuel attemptsDone lastError).result =
          Except.error { kind := JsErrorKind.abortError, message := msg2, status := none } ∧
        (requestLoop (buildUrl config path opts.params) config.logger (opts.method.getD "GET")
            (mergeRetryConfig config.retry) transport rand fuel attemptsDone
            lastError).attemptsUsed = attemptsDone + 1) := by
  have step : ∀ (fuel attemptsDone : Nat) (lastError : Option JsError) (msg2 : String),
      transport (attemptsDone + 1) = FetchOutcome.throwNet JsErrorKind.abortError msg2 →
      requestLoop (buildUrl config path opts.params) config.logger (opts.method.getD "GET")
          (mergeRetryConfig config.retry) transport rand (fuel + 1) attemptsDone lastError =
        { result := Except.error { kind := JsErrorKind.abortError, message := msg2, status := none }
          events := [] ++
            (if hasErrorCb config.logger then
              [LogEvent.error (opts.method.getD "GET") (buildUrl config path opts.params)
                (ErrorPayload.errObj
                  { kind := JsErrorKind.abortError, message := msg2, status := none })]
            else [])
          attemptsUsed := attemptsDone + 1 } := by
    intro fuel attemptsDone lastError msg2 hab
    have hstep : executeRequest (buildUrl config path opts.params) config.logger
        (opts.method.getD "GET") (transport (attemptsDone + 1)) =
        (Except.error { kind := JsErrorKind.abortError, message := msg2, status := none },
          ([] : List (LogEvent T))) := by
      rw [hab]
      simp [executeRequest]
    have hsr : (decide (attemptsDone + 1 < (mergeRetryConfig config.retry).maxAttempts) &&
        (isRetryableError { kind := JsErrorKind.abortError, message := msg2, status := none } ||
          statusRetryable { kind := JsErrorKind.abortError, message := msg2, status := none }
            (mergeRetryConfig config.retry))) = false := by
      simp [isRetryableError, statusRetryable]
    exact requestLoop_succ_noRetry hstep hsr
  refine ⟨rfl, ?_, ?_, ?_⟩
  · simp only [request]
    rw [show (mergeRetryConfig config.retry).maxAttempts =
      ((mergeRetryConfig config.retry).maxAttempts - 1) + 1 from by omega]
    rw [step ((mergeRetryConfig config.retry).maxAttempts - 1) 0 none msg habort]
  · simp only [request]
    rw [show (mergeRetryConfig config.retry).maxAttempts =
      ((mergeRetryConfig config.retry).maxAttempts - 1) + 1 from by omega]
    rw [step ((mergeRetryConfig config.retry).maxAttempts - 1) 0 none msg habort]
  · intro fuel attemptsDone lastError msg2 hfuel hab
    rw [show fuel = (fuel - 1) + 1 from by omega]
    rw [step (fuel - 1) attemptsDone lastError msg2 hab]
    exact ⟨rfl, rfl⟩

/-- Witness for C4: with a timeout configured and the first attempt
aborted, the call raises the abort error after exactly one attempt even
though the default policy would allow 3. -/
theorem claim_C4_witness :
    isRetryableError { kind := JsErrorKind.abortError, message := "AbortError", status := none } =
      false ∧
    (request { host := "example.com", timeout := some 5000 } "p" {}
        (fun _ => FetchOutcome.throwNet JsErrorKind.abortError "AbortError" :
          Nat → FetchOutcome Bool) (fun _ => (0 : ℚ))).result =
      Except.error { kind := JsErrorKind.abortError, message := "AbortError", status := none } ∧
    (request { host := "example.com", timeout := some 5000 } "p" {}
        (fun _ => FetchOutcome.throwNet JsErrorKind.abortError "AbortError" :
          Nat → FetchOutcome Bool) (fun _ => (0 : ℚ))).attemptsUsed = 1 :=
  have h := claim_C4 { host := "example.com", timeout := some 5000 } "p" {}
    (fun _ => FetchOutcome.throwNet JsErrorKind.abortError "AbortError" :
      Nat → FetchOutcome Bool) (fun _ => (0 : ℚ)) 5000 "AbortError" rfl (by omega) rfl (by decide)
  ⟨h.1, h.2.1, h.2.2.1⟩

/-- Claim C10: a logical call that ends with a terminal non-retried
non-2xx failure, under a logger defining `request` and `error` callbacks,
invokes the `error` callback twice for the single failing attempt — once
from `executeRequest` with the decoded (or synthesized) JSON error body
and once from the retry loop with the thrown error object — so the call
produces exactly three logger events (one request event, two error
events), not two. -/
theorem claim_C10 {T : Type} (config : BacklogConfig) (path : String) (opts : RequestOptions)
    (rand : Nat → ℚ) (st : Nat) (statusText : String) (body : Option BacklogError) (lg : Logger)
    (hlg : config.logger = some lg) (hreq : lg.hasRequest = true) (herr : lg.hasError = true)
    (hK : 1 ≤ (mergeRetryConfig config.retry).maxAttempts)
    (hnr : isRetryableStatusCode st (mergeRetryConfig config.retry) = false) :
    (request config path opts (fun _ => FetchOutcome.nonOk st statusText body :
        Nat → FetchOutcome T) rand).events =
      [LogEvent.request (opts.method.getD "GET") (buildUrl config path opts.params)
          (buildHeaders config)
          (if truthyStr opts.body && decide (opts.method.getD "GET" ≠ "GET")
           then opts.body else none),
        LogEvent.error (opts.method.getD "GET") (buildUrl config path opts.params)
          (ErrorPayload.errData (body.getD (synthesizedError st statusText))),
        LogEvent.error (opts.method.getD "GET") (buildUrl config path opts.params)
          (ErrorPayload.errObj (httpFailure st statusText body))] ∧
    ((request config path opts (fun _ => FetchOutcome.nonOk st statusText body :
        Nat → FetchOutcome T) rand).events.filter isErrorEvent).length = 2 ∧
    (request config path opts (fun _ => FetchOutcome.nonOk st statusText body :
        Nat → FetchOutcome T) rand).events.length = 3 := by
  have hstep : executeRequest (buildUrl config path opts.params) config.logger
      (opts.method.getD "GET")
      ((fun _ => FetchOutcome.nonOk st statusText body : Nat → FetchOutcome T) (0 + 1)) =
      (Except.error (httpFailure st statusText body),
        if hasErrorCb config.logger then
          [LogEvent.error (opts.method.getD "GET") (buildUrl config path opts.params)
            (ErrorPayload.errData (body.getD (synthesizedError st statusText)))]
        else []) := by
    simp [executeRequest, httpFailure]
  have hsr : (decide (0 + 1 < (mergeRetryConfig config.retry).maxAttempts) &&
      (isRetryableError (httpFailure st statusText body) ||
        statusRetryable (httpFailure st statusText body) (mergeRetryConfig config.retry))) =
      false := by
    simp [isRetryableError, statusRetryable, httpFailure, hnr]
  have hev : (request config path opts (fun _ => FetchOutcome.nonOk st statusText body :
      Nat → FetchOutcome T) rand).events =
      [LogEvent.request (opts.method.getD "GET") (buildUrl config path opts.params)
          (buildHeaders config)
          (if truthyStr opts.body && decide (opts.method.getD "GET" ≠ "GET")
           then opts.body else none),
        LogEvent.error (opts.method.getD "GET") (buildUrl config path opts.params)
          (ErrorPayload.errData (body.getD (synthesizedError st statusText))),
        LogEvent.error (opts.method.getD "GET") (buildUrl config path opts.params)
          (ErrorPayload.errObj (httpFailure st statusText body))] := by
    simp only [request]
    rw [show (mergeRetryConfig config.retry).maxAttempts =
      ((mergeRetryConfig config.retry).maxAttempts - 1) + 1 from by omega]
    rw [requestLoop_succ_noRetry hstep hsr]
    simp [hasRequestCb, hasErrorCb, hlg, hreq, herr]
  refine ⟨hev, ?_, ?_⟩
  · rw [hev]
    simp [isErrorEvent]
  · rw [hev]
    rfl

/-- Witness for C10: the repository's own logger test scenario — a 400
response with `maxAttempts = 1` and a logger capturing everything —
produces exactly 3 events: the request event and two error events. -/
theorem claim_C10_witness :
    (request
        { host := "example.com", apiKey := some "test-key",
          logger := some { hasRequest := true, hasResponse := true, hasError := true },
          retry := some { maxAttempts := some 1 } }
        "space" {}
        (fun _ => FetchOutcome.nonOk 400 "Bad Request"
          (some { message := "Error occurred", code := some 400,
                  errors := some [{ message := "Invalid request", code := 400 }] }) :
          Nat → FetchOutcome Bool)
        (fun _ => (0 : ℚ))).events =
      [LogEvent.request "GET"
          (buildUrl
            { host := "example.com", apiKey := some "test-key",
              logger := some { hasRequest := true, hasResponse := true, hasError := true },
              retry := some { maxAttempts := some 1 } } "space" [])
          (buildHeaders
            { host := "example.com", apiKey := some "test-key",
              logger := some { hasRequest := true, hasResponse := true, hasError := true },
              retry := some { maxAttempts := some 1 } })
          none,
        LogEvent.error "GET"
          (buildUrl
            { host := "example.com", apiKey := some "test-key",
              logger := some { hasRequest := true, hasResponse := true, hasError := true },
              retry := some { maxAttempts := some 1 } } "space" [])
          (ErrorPayload.errData
            { message := "Error occurred", code := some 400,
              errors := some [{ message := "Invalid request", code := 400 }] }),
        LogEvent.error "GET"
          (buildUrl
            { host := "example.com", apiKey := some "test-key",
              logger := some { hasRequest := true, hasResponse := true, hasError := true },
              retry := some { maxAttempts := some 1 } } "space" [])
          (ErrorPayload.errObj (httpFailure 400 "Bad Request"
            (some { message := "Error occurred", code := some 400,
                    errors := some [{ message := "Invalid request", code := 400 }] })))] :=
  (claim_C10
    { host := "example.com", apiKey := some "test-key",
      logger := some { hasRequest := true, hasResponse := true, hasError := true },
      retry := some { maxAttempts := some 1 } }
    "space" {} (fun _ => (0 : ℚ)) 400 "Bad Request"
    (some { message := "Error occurred", code := some 400,
            errors := some [{ message := "Invalid request", code := 400 }] })
    { hasRequest := true, hasResponse := true, hasError := true }
    rfl rfl rfl (by decide) (by decide)).1

end Backlog
